import Mathlib

/-!
Verification development for the Mailkit repository
(src/mailkit/main.py and src/mailkit/proxification_v2.py).

The Python code is shallowly embedded: pure data flow becomes Lean
functions, network effects are abstracted by explicit environments, and
the tenacity retry decorator becomes a counting combinator.  Library
behaviour that the repository relies on is modelled where it decides a
property and is documented at the definition:
  - PySocks constants PROXY_TYPE_SOCKS4/SOCKS5/HTTP = 1/2/3,
    with socks.HTTP = PROXY_TYPE_HTTP and socks.SOCKS5 = PROXY_TYPE_SOCKS5;
  - imaplib: IMAP4.__init__ calls self.open(host, port, timeout), and
    IMAP4.open calls self._create_socket(timeout);
  - imap_tools: BaseMailBox.__init__ calls self._get_mailbox_client() once;
  - tenacity: @retry(stop=stop_after_attempt(3), wait=wait_fixed(3))
    calls the wrapped function up to 3 times, retrying on any exception,
    and surfaces the last failure (wrapped in RetryError) after the 3rd.
-/

/-- PySocks constant PROXY_TYPE_SOCKS4 (= 1). -/
def PROXY_TYPE_SOCKS4 : Nat := 1

/-- PySocks constant PROXY_TYPE_SOCKS5 (= 2); socks.SOCKS5 is an alias. -/
def PROXY_TYPE_SOCKS5 : Nat := 2

/-- PySocks constant PROXY_TYPE_HTTP (= 3); socks.HTTP is an alias. -/
def PROXY_TYPE_HTTP : Nat := 3

deriving instance DecidableEq for Except

/-- Python str.upper for the ASCII strings used here, written over the
character list so that it evaluates by kernel reduction. -/
def pyUpper (s : String) : String := String.mk (s.toList.map Char.toUpper)

/-- Python str.lower for the ASCII strings used here, written over the
character list so that it evaluates by kernel reduction. -/
def pyLower (s : String) : String := String.mk (s.toList.map Char.toLower)

/-- Runtime value of the ProxyConfig.proxy_type field: declared as str, but
connect_and_login (main.py 183/185) may store a socks numeric code into it. -/
inductive PType where
  | str (s : String)
  | code (n : Nat)
deriving DecidableEq, Repr

/-- ProxyConfig (main.py 28-37): pydantic model; proxy_port constrained to
1..65535 and timeout to at least 1, with timeout defaulting to 10. -/
structure ProxyConfig where
  proxy_type : PType
  proxy_addr : String
  proxy_port : Nat
  proxy_username : Option String := none
  proxy_password : Option String := none
  timeout : Nat := 10
deriving DecidableEq, Repr

/-- Construction-time validation performed by pydantic on ProxyConfig
(main.py 34, 37: ge/le bounds). -/
def ProxyConfig.validated (c : ProxyConfig) : Bool :=
  1 ≤ c.proxy_port && c.proxy_port ≤ 65535 && 1 ≤ c.timeout

/-- Provider dictionary (main.py 16-25). -/
def providers : List (String × String) :=
  [("gmail.com", "imap.gmail.com"),
   ("yahoo.com", "imap.mail.yahoo.com"),
   ("mail.com", "imap.mail.com"),
   ("gmx.com", "imap.gmx.com"),
   ("mail.ru", "imap.mail.ru"),
   ("rambler.ru", "imap.rambler.ru"),
   ("autorambler.ru", "imap.rambler.ru"),
   ("outlook.com", "outlook.office365.com"),
   ("hotmail.com", "outlook.office365.com"),
   ("aol.com", "imap.aol.com")]

/-- Dictionary lookup providers[domain], none when the key is absent. -/
def providersLookup (d : String) : Option String :=
  (providers.find? (fun p => p.1 == d)).map (fun p => p.2)

/-- The proxy_type translation block of connect_and_login (main.py 181-191):
a string equal to HTTP or SOCKS5 (case-insensitively) is replaced by the
socks numeric code; any other string falls through unchanged; a non-string
value must already be socks.HTTP or socks.SOCKS5, otherwise ValueError. -/
def translateProxyType : PType → Except String PType
  | .str s =>
    if pyUpper s = "HTTP" then .ok (.code PROXY_TYPE_HTTP)
    else if pyUpper s = "SOCKS5" then .ok (.code PROXY_TYPE_SOCKS5)
    else .ok (.str s)
  | .code n =>
    if n = PROXY_TYPE_HTTP ∨ n = PROXY_TYPE_SOCKS5 then .ok (.code n)
    else .error "Invalid proxy type. Must be either HTTP, SOCKS5, or a valid socks proxy type."

/-- Keyword arguments of the MailBoxProxy construction in connect_and_login
(main.py 193-201). -/
structure MailBoxProxyArgs where
  host : String
  p_proxy_type : String
  p_proxy_addr : String
  p_proxy_port : Nat
  p_proxy_username : Option String
  p_proxy_password : Option String
  p_timeout : Nat
deriving DecidableEq, Repr

/-- The exact MailBoxProxy arguments built from the resolved provider and the
proxy config (main.py 193-201).  Note that p_proxy_type is the string
literal HTTP at the call site (main.py 195), independent of the config. -/
def mailKitMailBoxProxyArgs (provider : String) (cfg : ProxyConfig) : MailBoxProxyArgs :=
  { host := provider
    p_proxy_type := "HTTP"
    p_proxy_addr := cfg.proxy_addr
    p_proxy_port := cfg.proxy_port
    p_proxy_username := cfg.proxy_username
    p_proxy_password := cfg.proxy_password
    p_timeout := cfg.timeout }

/-- SocksIMAP4.PROXY_TYPES (proxification_v2.py 15-17), as a lookup that is
none on a missing key (a Python KeyError). -/
def PROXY_TYPES (s : String) : Option Nat :=
  if s = "socks4" then some PROXY_TYPE_SOCKS4
  else if s = "socks5" then some PROXY_TYPE_SOCKS5
  else if s = "http" then some PROXY_TYPE_HTTP
  else none

/-- Fields assigned by SocksIMAP4.__init__ (proxification_v2.py 19-28);
proxy_type holds the numeric code resolved from the lowercased string. -/
structure SocksIMAP4Fields where
  host : String
  port : Nat
  proxy_addr : Option String
  proxy_port : Option Nat
  rdns : Bool
  username : Option String
  password : Option String
  proxy_type : Option Nat
deriving DecidableEq, Repr

/-- SocksIMAP4.__init__ (proxification_v2.py 19-28). -/
def socksIMAP4Init (host : String) (port : Nat) (proxy_addr : Option String)
    (proxy_port : Option Nat) (rdns : Bool) (username password : Option String)
    (proxy_type : String) : SocksIMAP4Fields :=
  { host := host
    port := port
    proxy_addr := proxy_addr
    proxy_port := proxy_port
    rdns := rdns
    username := username
    password := password
    proxy_type := PROXY_TYPES (pyLower proxy_type) }

/-- The proxy protocol code the tunnel actually uses for a MailKit proxied
connection: connect_and_login passes mailKitMailBoxProxyArgs to MailBoxProxy,
whose _get_mailbox_client (proxification_v2.py 101-115) forwards
p_proxy_type to SocksIMAP4SSL, whence SocksIMAP4.__init__ resolves it
through PROXY_TYPES; _create_socket then tunnels with that code. -/
def tunnelProtocolCode (cfg : ProxyConfig) (provider : String) : Option Nat :=
  let a := mailKitMailBoxProxyArgs provider cfg
  (socksIMAP4Init a.host 993 (some a.p_proxy_addr) (some a.p_proxy_port) true
    a.p_proxy_username a.p_proxy_password a.p_proxy_type).proxy_type

/-- Arguments of the socks.create_connection call inside
SocksIMAP4._create_socket (proxification_v2.py 32-34). -/
structure CreateConnArgs where
  dest_host : String
  dest_port : Nat
  proxy_type : Option Nat
  proxy_addr : Option String
  proxy_port : Option Nat
  proxy_rdns : Bool
  proxy_username : Option String
  proxy_password : Option String
  timeout : Nat
deriving DecidableEq, Repr

/-- SocksIMAP4._create_socket (proxification_v2.py 31-34): the arguments it
hands to socks.create_connection.  Its timeout parameter (second argument
here) is never used: the call site passes the literal 10. -/
def createSocketCallArgs (f : SocksIMAP4Fields) (_timeoutParam : Option Nat) : CreateConnArgs :=
  { dest_host := f.host
    dest_port := f.port
    proxy_type := f.proxy_type
    proxy_addr := f.proxy_addr
    proxy_port := f.proxy_port
    proxy_rdns := f.rdns
    proxy_username := f.username
    proxy_password := f.password
    timeout := 10 }

/-- End-to-end socks.create_connection arguments for a MailKit proxied
connect: ProxyConfig.timeout flows as p_timeout into MailBoxProxy, then as
the timeout of SocksIMAP4SSL.__init__, through IMAP4.__init__ and IMAP4.open
into the timeout parameter of _create_socket, which ignores it. -/
def proxiedConnectArgs (cfg : ProxyConfig) (provider : String) : CreateConnArgs :=
  let a := mailKitMailBoxProxyArgs provider cfg
  let f := socksIMAP4Init a.host 993 (some a.p_proxy_addr) (some a.p_proxy_port) true
    a.p_proxy_username a.p_proxy_password a.p_proxy_type
  createSocketCallArgs f (some a.p_timeout)

/-- A tenacity retry wrapper around an operation that threads a counter of
underlying effect occurrences: given the count so far, the operation
returns its outcome and the updated count.  retryOp n models
stop_after_attempt(n): the operation is called, and on failure called
again, up to n calls in total; the last failure is surfaced (tenacity
raises RetryError wrapping the final attempt).  wait_fixed(3) only adds a
blocking sleep between calls and does not change outcomes or counts. -/
def retryOp {ε α : Type} : Nat → (Nat → Except ε α × Nat) → Nat → Except ε α × Nat
  | 0, op, n => op n
  | 1, op, n => op n
  | k + 2, op, n =>
    match op n with
    | (.ok a, m) => (.ok a, m)
    | (.error _, m) => retryOp (k + 1) op m

/-- One call of socks.create_connection, the innermost effect of a proxied
connect: succ says whether the k-th underlying connect attempt (counted
from 0) succeeds; the counter records how many such calls were made. -/
def socksCreateConnectionOp (succ : Nat → Bool) : Nat → Except Unit Unit × Nat :=
  fun n => (if succ n then .ok () else .error (), n + 1)

/-- SocksIMAP4._create_socket (proxification_v2.py 30-34): the
socks.create_connection call under its own retry decorator. -/
def createSocketInner (succ : Nat → Bool) : Nat → Except Unit Unit × Nat :=
  retryOp 3 (socksCreateConnectionOp succ)

/-- SocksIMAP4SSL._create_socket (proxification_v2.py 59-63): calls
SocksIMAP4._create_socket and wraps the socket in TLS (the wrap succeeds
whenever a socket was obtained, in the scenarios modelled here), under its
own retry decorator. -/
def createSocketSSL (succ : Nat → Bool) : Nat → Except Unit Unit × Nat :=
  retryOp 3 (createSocketInner succ)

/-- SocksIMAP4SSL.open (proxification_v2.py 65-67): IMAP4.open calls
self._create_socket, under its own retry decorator. -/
def sslOpen (succ : Nat → Bool) : Nat → Except Unit Unit × Nat :=
  retryOp 3 (createSocketSSL succ)

/-- MailBoxProxy._get_mailbox_client (proxification_v2.py 101-115):
constructs SocksIMAP4SSL, whose IMAP4.__init__ calls self.open, under its
own retry decorator. -/
def getMailboxClientOp (succ : Nat → Bool) : Nat → Except Unit Unit × Nat :=
  retryOp 3 (sslOpen succ)

/-- Constructing a MailBoxProxy: BaseMailBox.__init__ calls
_get_mailbox_client once. -/
def mailBoxProxyConnect (succ : Nat → Bool) : Nat → Except Unit Unit × Nat :=
  getMailboxClientOp succ

/-- An underlying connect that fails on every attempt. -/
def failAll : Nat → Bool := fun _ => false

/-- An underlying connect that fails on attempts 0 and 1 and succeeds from
the third attempt on. -/
def failTwice : Nat → Bool := fun n => decide (2 ≤ n)

/-- Python truthiness of an optional string: None and the empty string are
falsy. -/
def pyTruthy : Option String → Bool
  | none => false
  | some s => !s.isEmpty

/-- Substring test on character lists, Python needle in haystack. -/
def isSubOf (n : List Char) : List Char → Bool
  | [] => n.isEmpty
  | c :: t => n.isPrefixOf (c :: t) || isSubOf n t

/-- Python needle in haystack on strings. -/
def strContains (needle haystack : String) : Bool :=
  isSubOf needle.toList haystack.toList

/-- A fetched message, as scrap uses it: date is a timestamp in seconds,
day the calendar date of that timestamp, and seen the Seen flag. -/
structure Msg where
  date : Int
  day : Int
  subject : String
  from_ : String
  text : String
  html : String
  seen : Bool
deriving DecidableEq, Repr

/-- The search_criteria dict built by scrap (main.py 250-256). -/
structure Criteria where
  seenC : Option Bool := none
  subjectC : Option String := none
  fromC : Option String := none
deriving DecidableEq, Repr

/-- scrap builds search_criteria (main.py 250-256): seen is added whenever
the argument is not None; subject and from_ only when truthy. -/
def mkCriteria (seen : Option Bool) (scrapsub sender : Option String) : Criteria :=
  { seenC := seen
    subjectC := if pyTruthy scrapsub then scrapsub else none
    fromC := if pyTruthy sender then sender else none }

/-- Server-side IMAP SEARCH semantics of the AND criteria (imap_tools AND,
main.py 264): SUBJECT and FROM are substring matches on the respective
header fields, SEEN matches the flag. -/
def matchesCriteria (c : Criteria) (m : Msg) : Bool :=
  (match c.seenC with | none => true | some b => m.seen == b) &&
  (match c.subjectC with | none => true | some s => strContains s m.subject) &&
  (match c.fromC with | none => true | some s => strContains s m.from_)

/-- Python msg.text or msg.html (main.py 271, 273): the text body when it is
truthy (non-empty), the HTML body otherwise. -/
def textOrHtml (m : Msg) : String :=
  if m.text.isEmpty then m.html else m.text

/-- The keyword skip condition of scrap (main.py 271-272): keyword truthy
and not contained in the text-or-HTML body. -/
def keywordExcludes (keyword : Option String) (m : Msg) : Bool :=
  match keyword with
  | none => false
  | some k => !k.isEmpty && !strContains k (textOrHtml m)

/-- The per-message post-filters of scrap (main.py 266-272), true when the
message is kept.  time_diff is a timedelta in seconds (truthy when
non-zero); specific_date is a calendar date (datetimes are always truthy). -/
def postKeep (now : Int) (time_diff specific_date : Option Int) (keyword : Option String)
    (m : Msg) : Bool :=
  !(match time_diff with
    | some t => (t != 0) && decide (now - m.date > t)
    | none => false) &&
  !(match specific_date with
    | some d => m.day != d
    | none => false) &&
  !keywordExcludes keyword m

/-- One iteration of scrap's folder loop after a successful folder.set
(main.py 264-274): fetch with mark_seen=True marks the Seen flag on every
message matched by the search criteria, and the post-filtered bodies (the
BeautifulSoup inputs) are collected.  Returns the folder contents after the
fetch and the collected bodies. -/
def scrapFolderEffect (now : Int) (td sd : Option Int) (kw : Option String)
    (c : Criteria) (msgs : List Msg) : List Msg × List String :=
  (msgs.map (fun m => if matchesCriteria c m then { m with seen := true } else m),
   ((msgs.filter (fun m => matchesCriteria c m)).filter
      (fun m => postKeep now td sd kw m)).map textOrHtml)

/-- The fixed folder list of scrap (main.py 259-260). -/
def foldersList : List String :=
  ["INBOX", "SENT", "DRAFTS", "JUNK", "TRASH", "ARCHIVE", "Trash", "DraftBox", "Spam",
   "Sentbox", "Archive", "Deleted", "Drafts", "Inbox", "Junk", "Notes", "Outbox", "Sent"]

/-- Contribution of one folder to the scan: folder.set plus fetch are
abstracted by env (error models any failure of either); any failure is
swallowed at the folder level by the inner except (main.py 275-276), so a
failing folder contributes nothing. -/
def folderContribution (now : Int) (td sd : Option Int) (kw : Option String)
    (c : Criteria) (env : String → Except Unit (List Msg)) (f : String) : List String :=
  match env f with
  | .error _ => []
  | .ok msgs => (scrapFolderEffect now td sd kw c msgs).2

/-- One execution of the scrap body (main.py 244-284).  mb is None when
connect_and_login left no mailbox; env gives each folder's select-and-fetch
outcome.  The second component counts network operations (one folder.set
per visited folder); the validation error at main.py 247-248 is raised
before any folder is touched. -/
def scrapOnceN (now : Int) (mb : Option (String → Except Unit (List Msg)))
    (scrapsub sender keyword : Option String) (seen : Option Bool)
    (td sd : Option Int) : Except String (Option (List String)) × Nat :=
  match mb with
  | none => (.ok none, 0)
  | some env =>
    if !(pyTruthy scrapsub || pyTruthy sender || pyTruthy keyword) then
      (.error "At least one of scrapsub, sender, keyword must be provided.", 0)
    else
      let c := mkCriteria seen scrapsub sender
      let soups := (foldersList.map (folderContribution now td sd keyword c env)).flatten
      (.ok (if soups.isEmpty then none else some soups), foldersList.length)

/-- One tenacity attempt of scrap, counting body executions: the
missing-criteria validation check runs exactly once per execution on the
mailbox-present path.  scrap is decorated with
retry(stop=stop_after_attempt(3), wait=wait_fixed(3)) (main.py 226). -/
def scrapBody (now : Int) (mb : Option (String → Except Unit (List Msg)))
    (scrapsub sender keyword : Option String) (seen : Option Bool)
    (td sd : Option Int) : Nat → Except String (Option (List String)) × Nat :=
  fun attempts => ((scrapOnceN now mb scrapsub sender keyword seen td sd).1, attempts + 1)

/-- The decorated scrap: up to 3 executions of the body, retrying on any
raised exception, including the missing-criteria ValueError. -/
def scrapRetried (now : Int) (mb : Option (String → Except Unit (List Msg)))
    (scrapsub sender keyword : Option String) (seen : Option Bool)
    (td sd : Option Int) : Nat → Except String (Option (List String)) × Nat :=
  retryOp 3 (scrapBody now mb scrapsub sender keyword seen td sd)

/-- Splitting a character list at every occurrence of sep, keeping empty
pieces, as Python str.split does with a one-character separator. -/
def splitAtSep (sep : Char) : List Char → List (List Char)
  | [] => [[]]
  | c :: t =>
    if c = sep then [] :: splitAtSep sep t
    else
      match splitAtSep sep t with
      | [] => [[c]]
      | h :: rt => (c :: h) :: rt

/-- Python s.split(sep) for a one-character separator: on the empty string
it returns a singleton list holding the empty string, matching Python. -/
def pySplit (s : String) (sep : Char) : List String :=
  (splitAtSep sep s.toList).map (fun l => String.mk l)

/-- Environment abstracting the network effects of connect_and_login:
whether the MailBoxProxy or MailBox construction succeeds, whether
mailbox.login succeeds (false models MailboxLoginError), and whether
mailbox.folder.set INBOX returns a truthy value. -/
structure NetEnv where
  mailboxCtorOk : Bool
  loginOk : Bool
  inboxOk : Bool
deriving DecidableEq, Repr

/-- Return value of one connect_and_login body execution: True, False, or
the implicit None when the function falls off its end (main.py 173-224). -/
inductive CALResult where
  | rTrue
  | rFalse
  | rNone
deriving DecidableEq, Repr

/-- The mailbox object stored in self.mailbox, identified by how it was
constructed (main.py 193-203). -/
inductive MailboxHandle where
  | proxied (args : MailBoxProxyArgs)
  | direct (host : String)
deriving DecidableEq, Repr

/-- The attributes of a MailKit instance that connect_and_login reads or
writes (main.py 117-121). -/
structure MKState where
  u : String
  pw : String
  mailbox : Option MailboxHandle
  login_status : Bool
  proxy : Option ProxyConfig
deriving DecidableEq, Repr

/-- The login and INBOX-selection tail of connect_and_login
(main.py 205-213, 218-221): login is one network call and folder.set is
another; MailboxLoginError and a falsy folder.set both set login_status to
false and return False. -/
def loginAndInbox (env : NetEnv) (st : MKState) (calls : Nat) : CALResult × MKState × Nat :=
  if env.loginOk then
    if env.inboxOk then (.rTrue, { st with login_status := true }, calls + 2)
    else (.rFalse, { st with login_status := false }, calls + 2)
  else (.rFalse, { st with login_status := false }, calls + 2)

/-- One body execution of connect_and_login (main.py 173-224).  Returns the
Python return value, the updated instance state, and the number of network
calls made (mailbox construction, login, folder.set count one each).  Every
exception inside the try block is caught (main.py 218-224) and turned into
a False return, so no exception escapes and the tenacity decorator on
connect_and_login never retries. -/
def connectAndLoginOnce (env : NetEnv) (st : MKState) : CALResult × MKState × Nat :=
  let parts := pySplit st.u '@'
  if parts.length > 1 then
    let domain := parts.getD 1 ""
    match providersLookup domain with
    | some provider =>
      match st.proxy with
      | some cfg =>
        match translateProxyType cfg.proxy_type with
        | .error _ =>
          let st := { st with proxy := some cfg }
          (.rFalse, st, 0)
        | .ok pt =>
          let cfg := { cfg with proxy_type := pt }
          let st := { st with proxy := some cfg }
          if env.mailboxCtorOk then
            let st := { st with
              mailbox := some (.proxied (mailKitMailBoxProxyArgs provider cfg)) }
            loginAndInbox env st 1
          else (.rFalse, st, 1)
      | none =>
        if env.mailboxCtorOk then
          let st := { st with mailbox := some (.direct provider) }
          loginAndInbox env st 1
        else (.rFalse, st, 1)
    | none => (.rFalse, { st with login_status := false }, 0)
  else (.rNone, st, 0)

/-- MailKit.__init__ (main.py 79-124): sets u, pw, mailbox=None,
login_status=False and proxy, then calls connect_and_login.  The body of
connect_and_login never lets an exception escape, so its retry decorator
makes exactly one call and __init__ itself completes normally; the Except
layer records where Python could raise out of construction (nowhere on
these paths).  Returns the constructed state and the network call count. -/
def mkInit (u pw : String) (proxy : Option ProxyConfig) (env : NetEnv) :
    Except String (MKState × Nat) :=
  let st0 : MKState :=
    { u := u, pw := pw, mailbox := none, login_status := false, proxy := proxy }
  let r := connectAndLoginOnce env st0
  .ok (r.2.1, r.2.2)

/-- A ProxyConfig declaring SOCKS5 with a 30 second timeout. -/
def cfg30 : ProxyConfig :=
  { proxy_type := .str "SOCKS5", proxy_addr := "proxy.example", proxy_port := 1080,
    timeout := 30 }

/-- A validated ProxyConfig declaring SOCKS5 with the default timeout. -/
def cfgS5 : ProxyConfig :=
  { proxy_type := .str "SOCKS5", proxy_addr := "1.2.3.4", proxy_port := 1080 }

/-- An environment in which mailbox construction, login and INBOX selection
all succeed. -/
def envAllOk : NetEnv := { mailboxCtorOk := true, loginOk := true, inboxOk := true }

/-- The initial state of a MailKit constructed with user@gmail.com and the
SOCKS5 proxy config, just before connect_and_login runs. -/
def stS5 : MKState :=
  { u := "user@gmail.com", pw := "pw", mailbox := none, login_status := false,
    proxy := some cfgS5 }

/-- Claim C1: the tunnel protocol of a MailKit proxied connection is always
HTTP CONNECT, whatever proxy type the ProxyConfig declares: the MailBoxProxy
call site hardcodes p_proxy_type to the string HTTP, so the resolved socks
code is PROXY_TYPE_HTTP even though connect_and_login translated a SOCKS5
config to the socks SOCKS5 code just before (the translation is unused). -/
theorem c1_tunnel_always_http :
    (∀ (cfg : ProxyConfig) (provider : String),
      tunnelProtocolCode cfg provider = some PROXY_TYPE_HTTP) ∧
    translateProxyType (.str "SOCKS5") = .ok (.code PROXY_TYPE_SOCKS5) ∧
    PROXY_TYPE_HTTP ≠ PROXY_TYPE_SOCKS5 :=
  ⟨fun _ _ => rfl, by decide, by decide⟩

/-- Claim C2, counterexample: constructing MailKit with a SOCKS5 ProxyConfig
and running connect_and_login leaves proxy_type holding the socks numeric
code 2, not the construction string SOCKS5: the claim that no operation
mutates the caller-visible proxy_type is false. -/
theorem c2_counterexample :
    (mkInit "user@gmail.com" "pw" (some cfgS5) envAllOk).map
      (fun r => r.1.proxy.map ProxyConfig.proxy_type) =
      .ok (some (.code PROXY_TYPE_SOCKS5)) ∧
    PType.code PROXY_TYPE_SOCKS5 ≠ .str "SOCKS5" :=
  ⟨by decide, by decide⟩

/-- A validated ProxyConfig declaring HTTP with the default timeout. -/
def cfgHTTP : ProxyConfig :=
  { proxy_type := .str "HTTP", proxy_addr := "1.2.3.4", proxy_port := 8080 }

/-- The initial state of a MailKit constructed with user@gmail.com and the
HTTP proxy config, just before connect_and_login runs. -/
def stHTTP : MKState :=
  { u := "user@gmail.com", pw := "pw", mailbox := none, login_status := false,
    proxy := some cfgHTTP }

/-- Claim C2 as amended: connect_and_login mutates the ProxyConfig in place.
Whenever the email domain resolves and the stored proxy_type is a string,
an uppercasing equal to SOCKS5 leaves the state after connect_and_login
holding proxy_type = code 2 (the socks SOCKS5 constant), and an uppercasing
equal to HTTP leaves it holding proxy_type = code 3 (the socks HTTP
constant), whatever the network does. -/
theorem c2_amended (env : NetEnv) (st : MKState) (cfg : ProxyConfig) (s p : String)
    (hu : (pySplit st.u '@').length > 1)
    (hp : providersLookup ((pySplit st.u '@').getD 1 "") = some p)
    (hc : st.proxy = some cfg) (ht : cfg.proxy_type = .str s) :
    (pyUpper s = "SOCKS5" →
      ((connectAndLoginOnce env st).2.1.proxy).map ProxyConfig.proxy_type =
        some (.code PROXY_TYPE_SOCKS5)) ∧
    (pyUpper s = "HTTP" →
      ((connectAndLoginOnce env st).2.1.proxy).map ProxyConfig.proxy_type =
        some (.code PROXY_TYPE_HTTP)) := by
  rcases env with ⟨mc, lo, io⟩
  constructor
  · intro hs
    simp only [connectAndLoginOnce]
    rw [if_pos hu, hp, hc]
    cases mc <;> cases lo <;> cases io <;>
      simp [ht, translateProxyType, hs, loginAndInbox]
  · intro hs
    simp only [connectAndLoginOnce]
    rw [if_pos hu, hp, hc]
    cases mc <;> cases lo <;> cases io <;>
      simp [ht, translateProxyType, hs, loginAndInbox]

/-- Witness for c2_amended at user@gmail.com, once with the SOCKS5 config
(mutated to code 2) and once with the HTTP config (mutated to code 3). -/
theorem c2_amended_witness :
    (pySplit stS5.u '@').length > 1 ∧
    ((connectAndLoginOnce envAllOk stS5).2.1.proxy).map ProxyConfig.proxy_type =
      some (.code PROXY_TYPE_SOCKS5) ∧
    ((connectAndLoginOnce envAllOk stHTTP).2.1.proxy).map ProxyConfig.proxy_type =
      some (.code PROXY_TYPE_HTTP) :=
  ⟨by decide,
    (c2_amended envAllOk stS5 cfgS5 "SOCKS5" "imap.gmail.com"
      (by decide) (by decide) rfl rfl).1 (by decide),
    (c2_amended envAllOk stHTTP cfgHTTP "HTTP" "imap.gmail.com"
      (by decide) (by decide) rfl rfl).2 (by decide)⟩

/-- Claim C3, counterexample: with an underlying proxied socket connection
that fails on every attempt, constructing the MailBoxProxy session makes 81
underlying connect attempts, not 3: the retry decorators on
SocksIMAP4._create_socket, SocksIMAP4SSL._create_socket, SocksIMAP4SSL.open
and MailBoxProxy._get_mailbox_client nest, each multiplying by 3. -/
theorem c3_counterexample :
    mailBoxProxyConnect failAll 0 = (.error (), 81) ∧ (81 : Nat) ≠ 3 :=
  ⟨by decide, by decide⟩

/-- Claim C3 as amended: when the underlying socket connection fails on
every attempt, the four nested retry layers make 3 * 3 * 3 * 3 = 81
underlying connect attempts before the failure is surfaced (as a
retry-exhaustion error wrapping the last failure); when it fails twice and
succeeds on the third attempt, exactly 3 underlying connect attempts occur
and the session socket is established. -/
theorem c3_amended :
    mailBoxProxyConnect failAll 0 = (.error (), 81) ∧
    mailBoxProxyConnect failTwice 0 = (.ok (), 3) :=
  ⟨by decide, by decide⟩

/-- Claim C4, counterexample: scrap on an authenticated client with
scrapsub, sender and keyword all None runs the missing-criteria validation
check 3 times, not once: the ValueError it raises is retried by the
tenacity decorator on scrap. -/
theorem c4_counterexample :
    (scrapRetried 0 (some (fun _ => .ok [])) none none none none none none 0).2 = 3 ∧
    (3 : Nat) ≠ 1 :=
  ⟨rfl, by decide⟩

/-- Claim C4 as amended: the missing-criteria validation error is retried
by the retry decorator on scrap: the check runs exactly 3 times, with the
fixed 3 second wait between attempts, before the error is finally raised;
no network call is performed in any attempt. -/
theorem c4_amended :
    ∀ (now : Int) (env : String → Except Unit (List Msg)),
      scrapRetried now (some env) none none none none none none 0 =
        (.error "At least one of scrapsub, sender, keyword must be provided.", 3) ∧
      (scrapOnceN now (some env) none none none none none none).2 = 0 :=
  fun _ _ => ⟨rfl, rfl⟩

/-- Claim C5, counterexample: constructing MailKit with an email address
holding no at-sign completes normally, with no error of any kind, zero
network calls, no mailbox and login_status false: the split-length guard in
connect_and_login silently skips the whole body, so no ValidationError is
raised. -/
theorem c5_counterexample :
    mkInit "userexample.com" "pw" none envAllOk =
      .ok ({ u := "userexample.com", pw := "pw", mailbox := none,
             login_status := false, proxy := none }, 0) :=
  by decide

/-- Claim C5 as amended: for an email address without an at-sign, zero
network calls are indeed made, but construction does not fail: no
ValidationError is raised; connect_and_login returns None implicitly and
the instance is left with mailbox None and login_status false. -/
theorem c5_amended (u pw : String) (proxy : Option ProxyConfig) (env : NetEnv)
    (h : ¬ (pySplit u '@').length > 1) :
    mkInit u pw proxy env =
      .ok ({ u := u, pw := pw, mailbox := none, login_status := false,
             proxy := proxy }, 0) := by
  simp only [mkInit, connectAndLoginOnce]
  rw [if_neg h]

/-- Witness for c5_amended at the address userexample.com. -/
theorem c5_amended_witness :
    ¬ (pySplit "userexample.com" '@').length > 1 ∧
    mkInit "userexample.com" "pw" none envAllOk =
      .ok ({ u := "userexample.com", pw := "pw", mailbox := none,
             login_status := false, proxy := none }, 0) :=
  ⟨by decide, c5_amended "userexample.com" "pw" none envAllOk (by decide)⟩

/-- Claim C6: the proxied socket connect never uses the ProxyConfig
timeout: SocksIMAP4._create_socket ignores its timeout parameter (through
which the configured value arrives) and passes the literal 10 to
socks.create_connection, so a config with timeout 30 still connects with a
10 second timeout. -/
theorem c6_timeout_hardcoded :
    (∀ (cfg : ProxyConfig) (provider : String),
      (proxiedConnectArgs cfg provider).timeout = 10) ∧
    (proxiedConnectArgs cfg30 "imap.gmail.com").timeout ≠ 30 :=
  ⟨fun _ _ => rfl, by decide⟩

/-- Reduction of scrapOnceN on the mailbox-present path once the
missing-criteria validation has passed. -/
theorem scrapOnceN_ok (now : Int) (env : String → Except Unit (List Msg))
    (ss sn kw : Option String) (seen : Option Bool) (td sd : Option Int)
    (hv : (pyTruthy ss || pyTruthy sn || pyTruthy kw) = true) :
    scrapOnceN now (some env) ss sn kw seen td sd =
      (.ok (if ((foldersList.map (folderContribution now td sd kw
              (mkCriteria seen ss sn) env)).flatten).isEmpty then none
            else some ((foldersList.map (folderContribution now td sd kw
              (mkCriteria seen ss sn) env)).flatten)),
       foldersList.length) := by
  unfold scrapOnceN
  rw [hv]
  rfl

/-- Claim C7: when selecting or fetching one folder (for example SENT)
fails while the others succeed, scrap does not raise: the failing folder is
swallowed at the folder boundary and scrap returns exactly what it would
return if that folder were simply empty, so the matches accumulated from
the succeeding folders are still returned. -/
theorem c7_folder_resilience (now : Int) (env : String → Except Unit (List Msg))
    (ss sn kw : Option String) (seen : Option Bool) (td sd : Option Int)
    (hv : (pyTruthy ss || pyTruthy sn || pyTruthy kw) = true)
    (hS : env "SENT" = .error ()) :
    (∃ v, (scrapOnceN now (some env) ss sn kw seen td sd).1 = .ok v) ∧
    (scrapOnceN now (some env) ss sn kw seen td sd).1 =
      (scrapOnceN now (some (fun f => if f = "SENT" then .ok [] else env f))
        ss sn kw seen td sd).1 := by
  have hmap : foldersList.map
      (folderContribution now td sd kw (mkCriteria seen ss sn) env) =
      foldersList.map (folderContribution now td sd kw (mkCriteria seen ss sn)
        (fun f => if f = "SENT" then .ok [] else env f)) := by
    refine List.map_congr_left ?_
    intro f _
    by_cases hf : f = "SENT"
    · subst hf
      simp [folderContribution, hS, scrapFolderEffect]
    · simp [folderContribution, hf]
  refine ⟨⟨_, by rw [scrapOnceN_ok now env ss sn kw seen td sd hv]⟩, ?_⟩
  rw [scrapOnceN_ok now env ss sn kw seen td sd hv,
    scrapOnceN_ok now (fun f => if f = "SENT" then .ok [] else env f) ss sn kw seen td sd hv,
    hmap]

/-- A message whose body holds the marker invoice#4471, used as the running
concrete example. -/
def msgInv : Msg :=
  { date := 0, day := 0, subject := "Invoice", from_ := "billing@shop.example",
    text := "invoice#4471", html := "", seen := false }

/-- The empty search criteria (no seen, subject or sender constraint). -/
def critNone : Criteria := {}

/-- A folder environment in which SENT fails and every other folder holds
exactly the invoice message. -/
def envSENTfail : String → Except Unit (List Msg) :=
  fun f => if f = "SENT" then .error () else .ok [msgInv]

/-- Witness for c7_folder_resilience at the concrete environment where only
SENT fails, with subject criterion Invoice. -/
theorem c7_folder_resilience_witness :
    (pyTruthy (some "Invoice") || pyTruthy none || pyTruthy none) = true ∧
    envSENTfail "SENT" = .error () ∧
    ((∃ v, (scrapOnceN 0 (some envSENTfail) (some "Invoice") none none none none none).1 =
        .ok v) ∧
      (scrapOnceN 0 (some envSENTfail) (some "Invoice") none none none none none).1 =
        (scrapOnceN 0 (some (fun f => if f = "SENT" then .ok [] else envSENTfail f))
          (some "Invoice") none none none none none).1) :=
  ⟨by decide, rfl,
    c7_folder_resilience 0 envSENTfail (some "Invoice") none none none none none
      (by decide) rfl⟩

/-- Empty needles are substrings of everything, matching the Python
semantics of the in operator. -/
theorem strContains_empty (s : String) : strContains "" s = true := by
  show isSubOf [] s.toList = true
  cases s.toList with
  | nil => rfl
  | cons c t => rfl

/-- Claim C8: within scrap's per-folder processing, a message matched by
the search criteria is included in the returned bodies exactly when the
given keyword occurs in its text-or-HTML body (time and date filters
unset); in particular it is excluded exactly when the keyword is absent. -/
theorem c8_keyword_filter (now : Int) (c : Criteria) (m : Msg) (kw : String)
    (hm : matchesCriteria c m = true) :
    (textOrHtml m ∈ (scrapFolderEffect now none none (some kw) c [m]).2 ↔
      strContains kw (textOrHtml m) = true) := by
  have hpost : postKeep now none none (some kw) m =
      !(!kw.isEmpty && !strContains kw (textOrHtml m)) := by
    simp [postKeep, keywordExcludes]
  cases hk : strContains kw (textOrHtml m) with
  | true =>
    have hkeep : postKeep now none none (some kw) m = true := by
      rw [hpost, hk]; simp
    simp [scrapFolderEffect, List.filter, hm, hkeep]
  | false =>
    have hne : kw.isEmpty = false := by
      cases hke : kw.isEmpty
      · rfl
      · exfalso
        have hkw : kw = "" := (String.isEmpty_iff kw).mp hke
        rw [hkw, strContains_empty] at hk
        exact Bool.noConfusion hk
    have hkeep : postKeep now none none (some kw) m = false := by
      rw [hpost, hk, hne]; simp
    simp [scrapFolderEffect, List.filter, hm, hkeep]

/-- Witness for c8_keyword_filter: the invoice#4471 body with keyword
invoice is a search match and sits in the returned bodies exactly when the
keyword occurs, which it does here. -/
theorem c8_keyword_filter_witness :
    matchesCriteria critNone msgInv = true ∧
    (textOrHtml msgInv ∈ (scrapFolderEffect 0 none none (some "invoice") critNone [msgInv]).2 ↔
      strContains "invoice" (textOrHtml msgInv) = true) :=
  ⟨by decide, c8_keyword_filter 0 critNone msgInv "invoice" (by decide)⟩

/-- Claim C9: in a selected folder every message matched by the search
criteria is fetched with mark-seen, so the post-fetch folder state marks it
seen whatever the time-window, specific-date or keyword post-filters are:
the post-state is exactly the criteria-matched marking, independent of the
post-filter arguments, even for messages the filters exclude from the
returned bodies. -/
theorem c9_mark_seen (now : Int) (td sd : Option Int) (kw : Option String)
    (c : Criteria) (msgs : List Msg) (m : Msg)
    (hm : m ∈ msgs) (hc : matchesCriteria c m = true) :
    (scrapFolderEffect now td sd kw c msgs).1 =
      msgs.map (fun x => if matchesCriteria c x then { x with seen := true } else x) ∧
    { m with seen := true } ∈ (scrapFolderEffect now td sd kw c msgs).1 := by
  refine ⟨rfl, ?_⟩
  show { m with seen := true } ∈
    msgs.map (fun x => if matchesCriteria c x then { x with seen := true } else x)
  have h2 : (fun x => if matchesCriteria c x then { x with seen := true } else x) m =
      { m with seen := true } := by simp [hc]
  exact h2 ▸ List.mem_map_of_mem _ hm

/-- Witness for c9_mark_seen: with keyword refund, the invoice message is
excluded from the returned bodies yet its seen flag is set in the
post-fetch folder state. -/
theorem c9_mark_seen_witness :
    (scrapFolderEffect 0 none none (some "refund") critNone [msgInv]).2 = [] ∧
    { msgInv with seen := true } ∈
      (scrapFolderEffect 0 none none (some "refund") critNone [msgInv]).1 :=
  ⟨by decide,
    (c9_mark_seen 0 none none (some "refund") critNone [msgInv] msgInv
      (by decide) (by decide)).2⟩

/-- Claim C10: on a MailKit whose connect_and_login left no mailbox, scrap
returns None without raising and without any network call, for every
argument combination, including scrapsub, sender and keyword all None: the
missing-criteria validation sits inside the mailbox-present branch and is
skipped entirely, so even the retried scrap makes a single body execution
and returns None. -/
theorem c10_unauthenticated_scrap_none :
    ∀ (now : Int) (ss sn kw : Option String) (seen : Option Bool) (td sd : Option Int),
      scrapOnceN now none ss sn kw seen td sd = (.ok none, 0) ∧
      retryOp 3 (scrapBody now none ss sn kw seen td sd) 0 = (.ok none, 1) :=
  fun _ _ _ _ _ _ _ => ⟨rfl, rfl⟩
